import Mathlib

/-!
# Verification of the workflow-selection decision core

Shallow embedding (over `ℚ`) of the decision-modeling middleware:
the Bayesian posterior calculator (`bayesian-decision-network.py`),
the fuzzy inference engine (`fuzzy-logic-decision.py`),
the consensus / sensitivity layer (`decision-transparency-engine.py`),
the Monte Carlo risk combiner (`context-prediction-risk-assessment.py`),
and the clamped task-analysis constructor (`streamlined-decision-engine.py`).
Python floats are modelled as exact rationals; dictionaries keyed by the
fixed enums are modelled as total functions on those enums.
-/

set_option maxHeartbeats 1000000

namespace AgentSystem

/-- `ComplexityLevel` enum from `bayesian-decision-network.py`. -/
inductive ComplexityLevel where
  | low
  | medium
  | high
deriving DecidableEq, Repr, Fintype

/-- `WorkflowType` enum (same four variants in every module). -/
inductive WorkflowType where
  | orchestrated
  | complete_system
  | taskit
  | aidevtasks
deriving DecidableEq, Repr, Fintype

instance : Nonempty WorkflowType := ⟨.orchestrated⟩

/-- The five score names of a `TaskAnalysis` (the keys of its `__dict__`). -/
inductive Factor where
  | technical_complexity
  | scope_impact
  | risk_factor
  | context_load
  | time_pressure
deriving DecidableEq, Repr, Fintype

/-- Python `max(iterable, key=p)` over the four workflows in enum/insertion
order: the first workflow attaining the maximal value wins ties. -/
def workflowOrder : List WorkflowType :=
  [.orchestrated, .complete_system, .taskit, .aidevtasks]

/-- Arg-max over the workflow dictionary, first-wins on ties, as computed by
`max(probabilities, key=probabilities.get)`. -/
def best_workflow (p : WorkflowType → ℚ) : WorkflowType :=
  workflowOrder.foldl (fun best w => if p best < p w then w else best) .orchestrated

namespace Bayesian

/-- `TaskAnalysis` dataclass of `bayesian-decision-network.py` (lines 28-47).
Note: this dataclass has no `__post_init__`; its fields keep whatever values
they were constructed with. -/
structure TaskAnalysis where
  technical_complexity : ℚ
  scope_impact : ℚ
  risk_factor : ℚ
  context_load : ℚ
  time_pressure : ℚ
deriving DecidableEq, Repr

/-- Discretization used in `TaskAnalysis.to_discrete_levels`: cut points
at 0.33 and 0.67. -/
def discretize (score : ℚ) : ComplexityLevel :=
  if score < 33/100 then .low
  else if score < 67/100 then .medium
  else .high

/-- `TaskAnalysis.to_discrete_levels`: discretize each of the five fields. -/
def TaskAnalysis.to_discrete_levels (t : TaskAnalysis) : Factor → ComplexityLevel
  | .technical_complexity => discretize t.technical_complexity
  | .scope_impact => discretize t.scope_impact
  | .risk_factor => discretize t.risk_factor
  | .context_load => discretize t.context_load
  | .time_pressure => discretize t.time_pressure

/-- `self.workflow_priors` set up in `initialize_prior_probabilities`. -/
def workflow_priors : WorkflowType → ℚ
  | .orchestrated => 40/100
  | .complete_system => 35/100
  | .taskit => 15/100
  | .aidevtasks => 10/100

/-- The four conditional probability tables of the network.  In the source
they are four dictionaries on `(WorkflowType, ComplexityLevel)` keys, total
on those 12 keys; they are the only mutable state of the network. -/
structure CPTState where
  success_given_workflow_complexity : WorkflowType → ComplexityLevel → ℚ
  success_given_workflow_scope : WorkflowType → ComplexityLevel → ℚ
  success_given_workflow_risk : WorkflowType → ComplexityLevel → ℚ
  success_given_workflow_context : WorkflowType → ComplexityLevel → ℚ

/-- Table `success_given_workflow_complexity` as first assigned in
`initialize_conditional_probability_tables`. -/
def init_complexity_table : WorkflowType → ComplexityLevel → ℚ
  | .orchestrated, .low => 95/100
  | .orchestrated, .medium => 72/100
  | .orchestrated, .high => 35/100
  | .complete_system, .low => 88/100
  | .complete_system, .medium => 92/100
  | .complete_system, .high => 85/100
  | .taskit, .low => 65/100
  | .taskit, .medium => 87/100
  | .taskit, .high => 93/100
  | .aidevtasks, .low => 75/100
  | .aidevtasks, .medium => 82/100
  | .aidevtasks, .high => 78/100

/-- Table `success_given_workflow_scope` as first assigned. -/
def init_scope_table : WorkflowType → ComplexityLevel → ℚ
  | .orchestrated, .low => 93/100
  | .orchestrated, .medium => 68/100
  | .orchestrated, .high => 25/100
  | .complete_system, .low => 85/100
  | .complete_system, .medium => 89/100
  | .complete_system, .high => 82/100
  | .taskit, .low => 70/100
  | .taskit, .medium => 85/100
  | .taskit, .high => 95/100
  | .aidevtasks, .low => 78/100
  | .aidevtasks, .medium => 80/100
  | .aidevtasks, .high => 72/100

/-- Table `success_given_workflow_risk` as first assigned. -/
def init_risk_table : WorkflowType → ComplexityLevel → ℚ
  | .orchestrated, .low => 90/100
  | .orchestrated, .medium => 75/100
  | .orchestrated, .high => 45/100
  | .complete_system, .low => 88/100
  | .complete_system, .medium => 90/100
  | .complete_system, .high => 93/100
  | .taskit, .low => 82/100
  | .taskit, .medium => 78/100
  | .taskit, .high => 70/100
  | .aidevtasks, .low => 80/100
  | .aidevtasks, .medium => 77/100
  | .aidevtasks, .high => 65/100

/-- Table `success_given_workflow_context` as first assigned. -/
def init_context_table : WorkflowType → ComplexityLevel → ℚ
  | .orchestrated, .low => 92/100
  | .orchestrated, .medium => 85/100
  | .orchestrated, .high => 60/100
  | .complete_system, .low => 88/100
  | .complete_system, .medium => 82/100
  | .complete_system, .high => 65/100
  | .taskit, .low => 85/100
  | .taskit, .medium => 90/100
  | .taskit, .high => 95/100
  | .aidevtasks, .low => 80/100
  | .aidevtasks, .medium => 75/100
  | .aidevtasks, .high => 70/100

/-- CPT state right after `initialize_conditional_probability_tables`. -/
def initial_cpts : CPTState :=
  ⟨init_complexity_table, init_scope_table, init_risk_table, init_context_table⟩

/-- `calculate_likelihood`: naive-Bayes product over the four wired factors
(`time_pressure` is not read).  In the source every `(workflow, level)` key is
present in each table, so the `.get(..., 0.5)` default never fires; the
embedding uses the total table functions directly. -/
def calculate_likelihood (s : CPTState) (workflow : WorkflowType)
    (discrete_levels : Factor → ComplexityLevel) : ℚ :=
  1 * s.success_given_workflow_complexity workflow (discrete_levels .technical_complexity)
    * s.success_given_workflow_scope workflow (discrete_levels .scope_impact)
    * s.success_given_workflow_risk workflow (discrete_levels .risk_factor)
    * s.success_given_workflow_context workflow (discrete_levels .context_load)

/-- `unnormalized_posteriors[workflow] = likelihood * prior`. -/
def unnormalized_posterior (s : CPTState) (d : Factor → ComplexityLevel)
    (workflow : WorkflowType) : ℚ :=
  calculate_likelihood s workflow d * workflow_priors workflow

/-- `total_probability = sum(unnormalized_posteriors.values())`. -/
def total_probability (s : CPTState) (d : Factor → ComplexityLevel) : ℚ :=
  ∑ w : WorkflowType, unnormalized_posterior s d w

/-- `calculate_posterior_probabilities`: normalize when the total is positive,
otherwise fall back to the uniform distribution `1.0 / len(WorkflowType)`. -/
def calculate_posterior_probabilities (s : CPTState)
    (d : Factor → ComplexityLevel) : WorkflowType → ℚ :=
  fun w =>
    if 0 < total_probability s d then
      unnormalized_posterior s d w / total_probability s d
    else
      1 / 4

/-- All entries of the four CPTs are nonnegative. -/
def cptNonneg (s : CPTState) : Prop :=
  (∀ w l, 0 ≤ s.success_given_workflow_complexity w l) ∧
  (∀ w l, 0 ≤ s.success_given_workflow_scope w l) ∧
  (∀ w l, 0 ≤ s.success_given_workflow_risk w l) ∧
  (∀ w l, 0 ≤ s.success_given_workflow_context w l)

lemma workflow_priors_nonneg (w : WorkflowType) : 0 ≤ workflow_priors w := by
  cases w <;> norm_num [workflow_priors]

lemma unnormalized_posterior_nonneg (s : CPTState) (hs : cptNonneg s)
    (d : Factor → ComplexityLevel) (w : WorkflowType) :
    0 ≤ unnormalized_posterior s d w := by
  obtain ⟨h1, h2, h3, h4⟩ := hs
  unfold unnormalized_posterior calculate_likelihood
  exact mul_nonneg
    (mul_nonneg
      (mul_nonneg
        (mul_nonneg (mul_nonneg zero_le_one (h1 _ _)) (h2 _ _))
        (h3 _ _))
      (h4 _ _))
    (workflow_priors_nonneg w)

lemma unnormalized_le_total (s : CPTState) (hs : cptNonneg s)
    (d : Factor → ComplexityLevel) (w : WorkflowType) :
    unnormalized_posterior s d w ≤ total_probability s d := by
  unfold total_probability
  exact Finset.single_le_sum (fun i _ => unnormalized_posterior_nonneg s hs d i)
    (Finset.mem_univ w)

/-- C1: for every `TaskAnalysis` input (and any nonnegative CPT state), the
posterior map has all four probabilities in `[0,1]` and they sum exactly to 1;
when the total unnormalized posterior is 0 the function returns the uniform
distribution `1/4` per workflow instead of raising. -/
theorem bayesian_posterior_normalized (s : CPTState) (hs : cptNonneg s)
    (t : TaskAnalysis) :
    (∀ w, 0 ≤ calculate_posterior_probabilities s t.to_discrete_levels w ∧
          calculate_posterior_probabilities s t.to_discrete_levels w ≤ 1) ∧
    (∑ w : WorkflowType, calculate_posterior_probabilities s t.to_discrete_levels w) = 1 ∧
    (total_probability s t.to_discrete_levels = 0 →
      ∀ w, calculate_posterior_probabilities s t.to_discrete_levels w = 1 / 4) := by
  set d := t.to_discrete_levels with hd
  have hnn := fun w => unnormalized_posterior_nonneg s hs d w
  by_cases hpos : 0 < total_probability s d
  · refine ⟨fun w => ?_, ?_, fun h0 => absurd h0 (ne_of_gt hpos)⟩
    · constructor
      · simp only [calculate_posterior_probabilities, if_pos hpos]
        exact div_nonneg (hnn w) (le_of_lt hpos)
      · simp only [calculate_posterior_probabilities, if_pos hpos]
        rw [div_le_one hpos]
        exact unnormalized_le_total s hs d w
    · simp only [calculate_posterior_probabilities, if_pos hpos]
      rw [← Finset.sum_div]
      exact div_self (ne_of_gt hpos)
  · refine ⟨fun w => ?_, ?_, fun _ w => ?_⟩
    · simp only [calculate_posterior_probabilities, if_neg hpos]
      norm_num
    · simp only [calculate_posterior_probabilities, if_neg hpos]
      rw [Finset.sum_const, Finset.card_univ]
      have hc : Fintype.card WorkflowType = 4 := rfl
      rw [hc]
      norm_num
    · simp only [calculate_posterior_probabilities, if_neg hpos]

/-- All-zero CPT state: makes every likelihood 0, exhibiting the
uniform-fallback branch of `calculate_posterior_probabilities`. -/
def zeroCpts : CPTState :=
  ⟨fun _ _ => 0, fun _ _ => 0, fun _ _ => 0, fun _ _ => 0⟩

theorem bayesian_posterior_normalized_witness :
    cptNonneg zeroCpts ∧
    ((∀ w, 0 ≤ calculate_posterior_probabilities zeroCpts
              (TaskAnalysis.to_discrete_levels ⟨1/2, 1/2, 1/2, 1/2, 1/2⟩) w ∧
          calculate_posterior_probabilities zeroCpts
              (TaskAnalysis.to_discrete_levels ⟨1/2, 1/2, 1/2, 1/2, 1/2⟩) w ≤ 1) ∧
     (∑ w : WorkflowType, calculate_posterior_probabilities zeroCpts
              (TaskAnalysis.to_discrete_levels ⟨1/2, 1/2, 1/2, 1/2, 1/2⟩) w) = 1 ∧
     (total_probability zeroCpts
          (TaskAnalysis.to_discrete_levels ⟨1/2, 1/2, 1/2, 1/2, 1/2⟩) = 0 →
      ∀ w, calculate_posterior_probabilities zeroCpts
              (TaskAnalysis.to_discrete_levels ⟨1/2, 1/2, 1/2, 1/2, 1/2⟩) w = 1 / 4)) :=
  have hz : cptNonneg zeroCpts :=
    ⟨fun _ _ => le_refl 0, fun _ _ => le_refl 0, fun _ _ => le_refl 0, fun _ _ => le_refl 0⟩
  ⟨hz, bayesian_posterior_normalized zeroCpts hz ⟨1/2, 1/2, 1/2, 1/2, 1/2⟩⟩

/-- `max` of a nonempty Python list of floats (used for the second-best
posterior in `select_workflow`); `0` on the empty list (unreachable here). -/
def listMaxD : List ℚ → ℚ
  | [] => 0
  | x :: xs => xs.foldl max x

/-- Value of `alternatives[0][1]` in `select_workflow`: with a stable
descending sort, this is the largest posterior among the workflows other than
the arg-max key. -/
def second_best_confidence (p : WorkflowType → ℚ) : ℚ :=
  listMaxD ((workflowOrder.erase (best_workflow p)).map p)

/-- The numeric core of `DecisionResult` as built by `select_workflow`. -/
structure DecisionResult where
  workflow : WorkflowType
  confidence : ℚ
  uncertainty : ℚ
  decision_margin : ℚ
deriving DecidableEq, Repr

/-- `select_workflow`: posterior, arg-max, confidence, uncertainty, margin. -/
def select_workflow (s : CPTState) (t : TaskAnalysis) : DecisionResult :=
  let p := calculate_posterior_probabilities s t.to_discrete_levels
  let best := best_workflow p
  { workflow := best
    confidence := p best
    uncertainty := 1 - p best
    decision_margin := p best - second_best_confidence p }

/-- C7: the Bayesian posterior (and the whole decision result) is independent
of `time_pressure`: two `TaskAnalysis` inputs agreeing on the other four
factors produce identical posteriors, workflow, confidence and margin, for any
CPT state. -/
theorem posterior_independent_of_time_pressure (s : CPTState) (a b : TaskAnalysis)
    (h1 : a.technical_complexity = b.technical_complexity)
    (h2 : a.scope_impact = b.scope_impact)
    (h3 : a.risk_factor = b.risk_factor)
    (h4 : a.context_load = b.context_load) :
    calculate_posterior_probabilities s a.to_discrete_levels =
      calculate_posterior_probabilities s b.to_discrete_levels ∧
    select_workflow s a = select_workflow s b := by
  have hun : ∀ w, unnormalized_posterior s a.to_discrete_levels w =
      unnormalized_posterior s b.to_discrete_levels w := by
    intro w
    unfold unnormalized_posterior calculate_likelihood TaskAnalysis.to_discrete_levels
    rw [h1, h2, h3, h4]
  have htot : total_probability s a.to_discrete_levels =
      total_probability s b.to_discrete_levels := by
    unfold total_probability
    exact Finset.sum_congr rfl (fun w _ => hun w)
  have hpost : calculate_posterior_probabilities s a.to_discrete_levels =
      calculate_posterior_probabilities s b.to_discrete_levels := by
    funext w
    unfold calculate_posterior_probabilities
    rw [hun w, htot]
  refine ⟨hpost, ?_⟩
  unfold select_workflow
  rw [hpost]

theorem posterior_independent_of_time_pressure_witness :
    calculate_posterior_probabilities initial_cpts
        (TaskAnalysis.to_discrete_levels ⟨1/2, 1/2, 1/2, 1/2, 1/10⟩) =
      calculate_posterior_probabilities initial_cpts
        (TaskAnalysis.to_discrete_levels ⟨1/2, 1/2, 1/2, 1/2, 9/10⟩) ∧
    select_workflow initial_cpts ⟨1/2, 1/2, 1/2, 1/2, 1/10⟩ =
      select_workflow initial_cpts ⟨1/2, 1/2, 1/2, 1/2, 9/10⟩ :=
  posterior_independent_of_time_pressure initial_cpts
    ⟨1/2, 1/2, 1/2, 1/2, 1/10⟩ ⟨1/2, 1/2, 1/2, 1/2, 9/10⟩ rfl rfl rfl rfl

/-- One feedback write to a CPT cell in `update_beliefs_with_feedback`:
nudge by the learning rate 0.05 toward 1.0 (success) or 0.0 (failure),
then clamp to `[0.01, 0.99]`. -/
def updateCell (success : Bool) (current_prob : ℚ) : ℚ :=
  max (1/100) (min (99/100)
    (if success then current_prob + (1/20) * (1 - current_prob)
     else current_prob - (1/20) * current_prob))

/-- `update_beliefs_with_feedback`: for each of the four wired factors, update
the cell `(chosen_workflow, discrete level of that factor)` of the matching
table (the `time_pressure` iteration hits the `continue` branch). -/
def update_beliefs_with_feedback (s : CPTState) (chosen_workflow : WorkflowType)
    (success : Bool) (d : Factor → ComplexityLevel) : CPTState where
  success_given_workflow_complexity := fun w l =>
    if w = chosen_workflow ∧ l = d .technical_complexity then
      updateCell success (s.success_given_workflow_complexity w l)
    else s.success_given_workflow_complexity w l
  success_given_workflow_scope := fun w l =>
    if w = chosen_workflow ∧ l = d .scope_impact then
      updateCell success (s.success_given_workflow_scope w l)
    else s.success_given_workflow_scope w l
  success_given_workflow_risk := fun w l =>
    if w = chosen_workflow ∧ l = d .risk_factor then
      updateCell success (s.success_given_workflow_risk w l)
    else s.success_given_workflow_risk w l
  success_given_workflow_context := fun w l =>
    if w = chosen_workflow ∧ l = d .context_load then
      updateCell success (s.success_given_workflow_context w l)
    else s.success_given_workflow_context w l

lemma updateCell_mem (success : Bool) (p : ℚ) :
    1/100 ≤ updateCell success p ∧ updateCell success p ≤ 99/100 :=
  ⟨le_max_left _ _, max_le (by norm_num) (min_le_left _ _)⟩

lemma updateCell_true_step (p : ℚ) (h1 : 1/100 ≤ p) (h2 : p ≤ 99/100) :
    p ≤ updateCell true p ∧ updateCell true p ≤ 99/100 ∧
    99/100 - updateCell true p ≤ (19/20) * (99/100 - p) := by
  unfold updateCell
  simp only [if_pos]
  rcases le_total (p + (1/20) * (1 - p)) (99/100) with h | h
  · rw [min_eq_right h, max_eq_right (by linarith)]
    refine ⟨by linarith, h, by linarith⟩
  · rw [min_eq_left h, max_eq_right (by norm_num)]
    refine ⟨h2, le_refl _, by nlinarith⟩

lemma updateCell_false_step (p : ℚ) (h1 : 1/100 ≤ p) (h2 : p ≤ 99/100) :
    updateCell false p ≤ p ∧ 1/100 ≤ updateCell false p ∧
    updateCell false p - 1/100 ≤ (19/20) * (p - 1/100) := by
  unfold updateCell
  simp only [Bool.false_eq_true, if_neg, ite_false]
  rw [min_eq_right (by linarith)]
  rcases le_total (1/100 : ℚ) (p - (1/20) * p) with h | h
  · rw [max_eq_right h]
    refine ⟨by linarith, h, by linarith⟩
  · rw [max_eq_left h]
    refine ⟨h1, le_refl _, by linarith⟩

lemma iter_true_bounds (p : ℚ) (h1 : 1/100 ≤ p) (h2 : p ≤ 99/100) (n : ℕ) :
    1/100 ≤ (updateCell true)^[n] p ∧ (updateCell true)^[n] p ≤ 99/100 ∧
    99/100 - (updateCell true)^[n] p ≤ (19/20)^n * (99/100 - p) := by
  induction n with
  | zero => exact ⟨h1, h2, by simp⟩
  | succ n ih =>
    obtain ⟨ih1, ih2, ih3⟩ := ih
    obtain ⟨hs1, hs2, hs3⟩ := updateCell_true_step _ ih1 ih2
    rw [Function.iterate_succ_apply']
    refine ⟨le_trans ih1 hs1, hs2, ?_⟩
    calc 99/100 - updateCell true ((updateCell true)^[n] p)
        ≤ (19/20) * (99/100 - (updateCell true)^[n] p) := hs3
      _ ≤ (19/20) * ((19/20)^n * (99/100 - p)) :=
          mul_le_mul_of_nonneg_left ih3 (by norm_num)
      _ = (19/20)^(n+1) * (99/100 - p) := by ring

lemma iter_false_bounds (p : ℚ) (h1 : 1/100 ≤ p) (h2 : p ≤ 99/100) (n : ℕ) :
    1/100 ≤ (updateCell false)^[n] p ∧ (updateCell false)^[n] p ≤ 99/100 ∧
    (updateCell false)^[n] p - 1/100 ≤ (19/20)^n * (p - 1/100) := by
  induction n with
  | zero => exact ⟨h1, h2, by simp⟩
  | succ n ih =>
    obtain ⟨ih1, ih2, ih3⟩ := ih
    obtain ⟨hs1, hs2, hs3⟩ := updateCell_false_step _ ih1 ih2
    rw [Function.iterate_succ_apply']
    refine ⟨hs2, le_trans hs1 ih2, ?_⟩
    calc updateCell false ((updateCell false)^[n] p) - 1/100
        ≤ (19/20) * ((updateCell false)^[n] p - 1/100) := hs3
      _ ≤ (19/20) * ((19/20)^n * (p - 1/100)) :=
          mul_le_mul_of_nonneg_left ih3 (by norm_num)
      _ = (19/20)^(n+1) * (p - 1/100) := by ring

/-- C5: starting from any cell value in `[0.01, 0.99]`, repeated success
updates form a non-decreasing sequence that never exceeds 0.99 and whose gap
to 0.99 shrinks at least geometrically (rate 19/20); repeated failure updates
form a non-increasing sequence that never goes below 0.01 and whose gap to
0.01 shrinks at least geometrically. -/
theorem cpt_update_converges (p : ℚ) (h1 : 1/100 ≤ p) (h2 : p ≤ 99/100) (n : ℕ) :
    ((updateCell true)^[n] p ≤ (updateCell true)^[n+1] p ∧
     (updateCell true)^[n] p ≤ 99/100 ∧
     99/100 - (updateCell true)^[n] p ≤ (19/20)^n * (99/100 - p)) ∧
    ((updateCell false)^[n+1] p ≤ (updateCell false)^[n] p ∧
     1/100 ≤ (updateCell false)^[n] p ∧
     (updateCell false)^[n] p - 1/100 ≤ (19/20)^n * (p - 1/100)) := by
  obtain ⟨ht1, ht2, ht3⟩ := iter_true_bounds p h1 h2 n
  obtain ⟨hf1, hf2, hf3⟩ := iter_false_bounds p h1 h2 n
  constructor
  · refine ⟨?_, ht2, ht3⟩
    rw [Function.iterate_succ_apply']
    exact (updateCell_true_step _ ht1 ht2).1
  · refine ⟨?_, hf1, hf3⟩
    rw [Function.iterate_succ_apply']
    exact (updateCell_false_step _ hf1 hf2).1

theorem cpt_update_converges_witness :
    ((updateCell true)^[3] (1/2) ≤ (updateCell true)^[4] (1/2) ∧
     (updateCell true)^[3] (1/2) ≤ 99/100 ∧
     99/100 - (updateCell true)^[3] (1/2) ≤ (19/20)^3 * (99/100 - 1/2)) ∧
    ((updateCell false)^[4] (1/2) ≤ (updateCell false)^[3] (1/2) ∧
     1/100 ≤ (updateCell false)^[3] (1/2) ∧
     (updateCell false)^[3] (1/2) - 1/100 ≤ (19/20)^3 * (1/2 - 1/100)) :=
  cpt_update_converges (1/2) (by norm_num) (by norm_num) 3

/-- Every CPT entry lies in `[0.01, 0.99]`. -/
def cptValid (s : CPTState) : Prop :=
  (∀ w l, 1/100 ≤ s.success_given_workflow_complexity w l ∧
          s.success_given_workflow_complexity w l ≤ 99/100) ∧
  (∀ w l, 1/100 ≤ s.success_given_workflow_scope w l ∧
          s.success_given_workflow_scope w l ≤ 99/100) ∧
  (∀ w l, 1/100 ≤ s.success_given_workflow_risk w l ∧
          s.success_given_workflow_risk w l ≤ 99/100) ∧
  (∀ w l, 1/100 ≤ s.success_given_workflow_context w l ∧
          s.success_given_workflow_context w l ≤ 99/100)

lemma workflow_priors_pos (w : WorkflowType) : 0 < workflow_priors w := by
  cases w <;> norm_num [workflow_priors]

lemma unnormalized_posterior_pos (s : CPTState) (hs : cptValid s)
    (d : Factor → ComplexityLevel) (w : WorkflowType) :
    0 < unnormalized_posterior s d w := by
  obtain ⟨h1, h2, h3, h4⟩ := hs
  unfold unnormalized_posterior calculate_likelihood
  have e1 := (h1 w (d .technical_complexity)).1
  have e2 := (h2 w (d .scope_impact)).1
  have e3 := (h3 w (d .risk_factor)).1
  have e4 := (h4 w (d .context_load)).1
  have hp := workflow_priors_pos w
  have c1 : (0:ℚ) < s.success_given_workflow_complexity w (d .technical_complexity) := by linarith
  have c2 : (0:ℚ) < s.success_given_workflow_scope w (d .scope_impact) := by linarith
  have c3 : (0:ℚ) < s.success_given_workflow_risk w (d .risk_factor) := by linarith
  have c4 : (0:ℚ) < s.success_given_workflow_context w (d .context_load) := by linarith
  positivity

/-- C10: the CPTs as initialized all lie in `[0.01, 0.99]`; the feedback
update keeps every entry in `[0.01, 0.99]`; and for any such state every
unnormalized total is strictly positive, so the uniform-fallback branch of
`calculate_posterior_probabilities` is never taken. -/
theorem cpt_positivity_no_fallback :
    cptValid initial_cpts ∧
    (∀ s w success d, cptValid s →
      cptValid (update_beliefs_with_feedback s w success d)) ∧
    (∀ s d, cptValid s →
      0 < total_probability s d ∧
      calculate_posterior_probabilities s d =
        fun w => unnormalized_posterior s d w / total_probability s d) := by
  refine ⟨?_, ?_, ?_⟩
  · refine ⟨fun w l => ?_, fun w l => ?_, fun w l => ?_, fun w l => ?_⟩ <;>
      cases w <;> cases l <;>
      norm_num [initial_cpts, init_complexity_table, init_scope_table,
        init_risk_table, init_context_table]
  · intro s w success d hs
    obtain ⟨h1, h2, h3, h4⟩ := hs
    refine ⟨fun w' l => ?_, fun w' l => ?_, fun w' l => ?_, fun w' l => ?_⟩ <;>
      simp only [update_beliefs_with_feedback] <;> split_ifs
    · exact updateCell_mem success _
    · exact h1 w' l
    · exact updateCell_mem success _
    · exact h2 w' l
    · exact updateCell_mem success _
    · exact h3 w' l
    · exact updateCell_mem success _
    · exact h4 w' l
  · intro s d hs
    have hpos : 0 < total_probability s d := by
      unfold total_probability
      exact Finset.sum_pos (fun w _ => unnormalized_posterior_pos s hs d w)
        Finset.univ_nonempty
    refine ⟨hpos, ?_⟩
    funext w
    simp only [calculate_posterior_probabilities, if_pos hpos]

theorem cpt_positivity_no_fallback_witness :
    0 < total_probability initial_cpts (fun _ => ComplexityLevel.medium) ∧
    calculate_posterior_probabilities initial_cpts (fun _ => ComplexityLevel.medium) =
      fun w => unnormalized_posterior initial_cpts (fun _ => ComplexityLevel.medium) w /
        total_probability initial_cpts (fun _ => ComplexityLevel.medium) :=
  cpt_positivity_no_fallback.2.2 initial_cpts (fun _ => ComplexityLevel.medium)
    cpt_positivity_no_fallback.1

end Bayesian

/-- The arg-max fold always returns a workflow of maximal value. -/
lemma le_best_workflow (p : WorkflowType → ℚ) (w : WorkflowType) :
    p w ≤ p (best_workflow p) := by
  unfold best_workflow workflowOrder
  simp only [List.foldl]
  cases w <;> split_ifs <;> linarith

namespace Fuzzy

/-- `FuzzyMembershipFunctions.triangular(a, b, c)` applied to `x`. -/
def triangular (a b c x : ℚ) : ℚ :=
  if x ≤ a ∨ c ≤ x then 0
  else if a < x ∧ x ≤ b then (if b = a then 1 else (x - a) / (b - a))
  else (if c = b then 1 else (c - x) / (c - b))

/-- Crisp inputs to `decide_workflow`: the five factor scores. -/
structure CrispInputs where
  technical_complexity : ℚ
  scope_impact : ℚ
  risk_factor : ℚ
  context_load : ℚ
  time_pressure : ℚ
deriving DecidableEq, Repr

/-! Input fuzzy sets from `initialize_fuzzy_sets`. -/

def tc_simple (x : ℚ) : ℚ := triangular 0 0 (35/100) x
def tc_moderate (x : ℚ) : ℚ := triangular (10/100) (40/100) (70/100) x
def tc_complex (x : ℚ) : ℚ := triangular (50/100) (80/100) 1 x
def tc_very_complex (x : ℚ) : ℚ := triangular (75/100) 1 1 x

def sc_narrow (x : ℚ) : ℚ := triangular 0 0 (40/100) x
def sc_moderate (x : ℚ) : ℚ := triangular (20/100) (50/100) (80/100) x
def sc_broad (x : ℚ) : ℚ := triangular (60/100) 1 1 x

def rk_low (x : ℚ) : ℚ := triangular 0 0 (30/100) x
def rk_medium (x : ℚ) : ℚ := triangular (10/100) (50/100) (90/100) x
def rk_high (x : ℚ) : ℚ := triangular (70/100) 1 1 x

def cl_light (x : ℚ) : ℚ := triangular 0 0 (30/100) x
def cl_moderate (x : ℚ) : ℚ := triangular (10/100) (40/100) (70/100) x
def cl_heavy (x : ℚ) : ℚ := triangular (50/100) (80/100) 1 x
def cl_overwhelming (x : ℚ) : ℚ := triangular (70/100) 1 1 x

def tp_relaxed (x : ℚ) : ℚ := triangular 0 0 (25/100) x
def tp_normal (x : ℚ) : ℚ := triangular (10/100) (40/100) (70/100) x
def tp_urgent (x : ℚ) : ℚ := triangular (50/100) (80/100) 1 x
def tp_critical (x : ℚ) : ℚ := triangular (80/100) 1 1 x

/-! Rule activations (`calculate_rule_activation`): per referenced factor take
the max membership over the rule's allowed labels, then the min across the
referenced factors, then multiply by the rule's weight. -/

def rule1_activation (c : CrispInputs) : ℚ :=
  min (tc_simple c.technical_complexity)
    (min (sc_narrow c.scope_impact) (rk_low c.risk_factor)) * (95/100)

def rule2_activation (c : CrispInputs) : ℚ :=
  min (max (tc_simple c.technical_complexity) (tc_moderate c.technical_complexity))
    (min (rk_low c.risk_factor) (cl_light c.context_load)) * (80/100)

def rule3_activation (c : CrispInputs) : ℚ :=
  min (max (tc_complex c.technical_complexity) (tc_very_complex c.technical_complexity))
    (max (rk_medium c.risk_factor) (rk_high c.risk_factor)) * (90/100)

def rule4_activation (c : CrispInputs) : ℚ :=
  rk_high c.risk_factor * (95/100)

def rule5_activation (c : CrispInputs) : ℚ :=
  min (sc_broad c.scope_impact)
    (max (tc_moderate c.technical_complexity)
      (max (tc_complex c.technical_complexity) (tc_very_complex c.technical_complexity)))
    * (85/100)

def rule6_activation (c : CrispInputs) : ℚ :=
  max (cl_heavy c.context_load) (cl_overwhelming c.context_load) * (90/100)

def rule7_activation (c : CrispInputs) : ℚ :=
  min (tc_moderate c.technical_complexity)
    (min (sc_moderate c.scope_impact) (rk_medium c.risk_factor)) * (75/100)

def rule8_activation (c : CrispInputs) : ℚ :=
  min (max (tc_complex c.technical_complexity) (tc_very_complex c.technical_complexity))
    (min (sc_broad c.scope_impact)
      (max (cl_heavy c.context_load) (cl_overwhelming c.context_load))) * (95/100)

def rule9_activation (c : CrispInputs) : ℚ :=
  min (tc_simple c.technical_complexity)
    (max (tp_urgent c.time_pressure) (tp_critical c.time_pressure)) * (80/100)

def rule10_activation (c : CrispInputs) : ℚ :=
  min (max (tc_moderate c.technical_complexity) (tc_complex c.technical_complexity))
    (min (max (sc_moderate c.scope_impact) (sc_broad c.scope_impact))
      (min (max (rk_low c.risk_factor) (rk_medium c.risk_factor))
        (max (tp_normal c.time_pressure) (tp_relaxed c.time_pressure)))) * (70/100)

def rule11_activation (c : CrispInputs) : ℚ :=
  min (tc_very_complex c.technical_complexity) (sc_narrow c.scope_impact) * (80/100)

def rule12_activation (c : CrispInputs) : ℚ :=
  min (tp_critical c.time_pressure)
    (min (max (tc_simple c.technical_complexity) (tc_moderate c.technical_complexity))
      (rk_low c.risk_factor)) * (60/100)

/-- `aggregate_rule_outputs`: per workflow, the max of
`activation * rule.confidence` over the rules concluding that workflow.
The source filters out rules with activation 0 and folds a running max over a
dictionary starting from an absent key (treated as 0); since every membership,
hence every activation, is nonnegative, the nested max below computes the same
value, with 0 standing for a workflow whose key is absent. -/
def workflow_strengths (c : CrispInputs) : WorkflowType → ℚ
  | .orchestrated =>
      max (rule1_activation c * (90/100))
        (max (rule2_activation c * (75/100))
          (max (rule9_activation c * (75/100)) (rule12_activation c * (60/100))))
  | .complete_system =>
      max (rule3_activation c * (85/100))
        (max (rule4_activation c * (90/100))
          (max (rule7_activation c * (70/100)) (rule11_activation c * (75/100))))
  | .taskit =>
      max (rule5_activation c * (80/100))
        (max (rule6_activation c * (85/100)) (rule8_activation c * (90/100)))
  | .aidevtasks => rule10_activation c * (65/100)

/-- `sum(workflow_strengths.values())` in `defuzzify_outputs`. -/
def total_strength (s : WorkflowType → ℚ) : ℚ :=
  s .orchestrated + s .complete_system + s .taskit + s .aidevtasks

/-- The normalization step of `defuzzify_outputs`. -/
def normalized_strengths (s : WorkflowType → ℚ) : WorkflowType → ℚ :=
  fun w => s w / total_strength s

/-- `defuzzify_outputs`: fall back to `(COMPLETE_SYSTEM, 0.5)` when the total
strength is 0 (which subsumes the source's separate empty-dictionary check),
otherwise pick the arg-max of the normalized strengths together with its
normalized value as confidence. -/
def defuzzify_outputs (s : WorkflowType → ℚ) : WorkflowType × ℚ :=
  if total_strength s = 0 then (.complete_system, 1/2)
  else (best_workflow (normalized_strengths s),
        normalized_strengths s (best_workflow (normalized_strengths s)))

/-- `decide_workflow`, restricted to its numeric core: fuzzify, evaluate and
aggregate the rules, then defuzzify. -/
def decide_workflow (c : CrispInputs) : WorkflowType × ℚ :=
  defuzzify_outputs (workflow_strengths c)

/-- C2: whenever the total aggregated strength is strictly positive, the
normalized per-workflow strengths sum to 1, and the returned confidence is the
normalized strength of the returned (arg-max) workflow, maximal among all
workflows. -/
theorem fuzzy_defuzzify_normalized (c : CrispInputs)
    (h : 0 < total_strength (workflow_strengths c)) :
    total_strength (normalized_strengths (workflow_strengths c)) = 1 ∧
    (decide_workflow c).2 =
      normalized_strengths (workflow_strengths c) (decide_workflow c).1 ∧
    ∀ w, normalized_strengths (workflow_strengths c) w ≤ (decide_workflow c).2 := by
  have hne : total_strength (workflow_strengths c) ≠ 0 := ne_of_gt h
  have hdw : decide_workflow c =
      (best_workflow (normalized_strengths (workflow_strengths c)),
       normalized_strengths (workflow_strengths c)
         (best_workflow (normalized_strengths (workflow_strengths c)))) := by
    unfold decide_workflow defuzzify_outputs
    rw [if_neg hne]
  refine ⟨?_, ?_, ?_⟩
  · unfold total_strength normalized_strengths
    field_simp
    unfold total_strength
    ring
  · rw [hdw]
  · intro w
    rw [hdw]
    exact le_best_workflow (normalized_strengths (workflow_strengths c)) w

theorem fuzzy_defuzzify_normalized_witness :
    0 < total_strength (workflow_strengths ⟨1/2, 1/2, 1/2, 1/2, 1/2⟩) ∧
    (total_strength (normalized_strengths (workflow_strengths ⟨1/2, 1/2, 1/2, 1/2, 1/2⟩)) = 1 ∧
     (decide_workflow ⟨1/2, 1/2, 1/2, 1/2, 1/2⟩).2 =
       normalized_strengths (workflow_strengths ⟨1/2, 1/2, 1/2, 1/2, 1/2⟩)
         (decide_workflow ⟨1/2, 1/2, 1/2, 1/2, 1/2⟩).1 ∧
     ∀ w, normalized_strengths (workflow_strengths ⟨1/2, 1/2, 1/2, 1/2, 1/2⟩) w ≤
       (decide_workflow ⟨1/2, 1/2, 1/2, 1/2, 1/2⟩).2) :=
  have h : 0 < total_strength (workflow_strengths ⟨1/2, 1/2, 1/2, 1/2, 1/2⟩) := by
    norm_num [total_strength, workflow_strengths, rule1_activation, rule2_activation,
      rule3_activation, rule4_activation, rule5_activation, rule6_activation,
      rule7_activation, rule8_activation, rule9_activation, rule10_activation,
      rule11_activation, rule12_activation, tc_simple, tc_moderate, tc_complex,
      tc_very_complex, sc_narrow, sc_moderate, sc_broad, rk_low, rk_medium, rk_high,
      cl_light, cl_moderate, cl_heavy, cl_overwhelming, tp_relaxed, tp_normal,
      tp_urgent, tp_critical, triangular, max_def, min_def]
  ⟨h, fuzzy_defuzzify_normalized ⟨1/2, 1/2, 1/2, 1/2, 1/2⟩ h⟩

/-- C6: when no fuzzy rule fires (total aggregated strength 0), the engine
returns `COMPLETE_SYSTEM` at confidence 0.5 via the documented fallback. -/
theorem fuzzy_no_rule_fallback (c : CrispInputs)
    (h : total_strength (workflow_strengths c) = 0) :
    decide_workflow c = (WorkflowType.complete_system, 1/2) := by
  unfold decide_workflow defuzzify_outputs
  rw [if_pos h]

theorem fuzzy_no_rule_fallback_witness :
    total_strength (workflow_strengths ⟨0, 0, 0, 0, 0⟩) = 0 ∧
    decide_workflow ⟨0, 0, 0, 0, 0⟩ = (WorkflowType.complete_system, 1/2) :=
  have h : total_strength (workflow_strengths ⟨0, 0, 0, 0, 0⟩) = 0 := by
    norm_num [total_strength, workflow_strengths, rule1_activation, rule2_activation,
      rule3_activation, rule4_activation, rule5_activation, rule6_activation,
      rule7_activation, rule8_activation, rule9_activation, rule10_activation,
      rule11_activation, rule12_activation, tc_simple, tc_moderate, tc_complex,
      tc_very_complex, sc_narrow, sc_moderate, sc_broad, rk_low, rk_medium, rk_high,
      cl_light, cl_moderate, cl_heavy, cl_overwhelming, tp_relaxed, tp_normal,
      tp_urgent, tp_critical, triangular, max_def, min_def]
  ⟨h, fuzzy_no_rule_fallback ⟨0, 0, 0, 0, 0⟩ h⟩

end Fuzzy

namespace Transparency

/-- `determine_consensus` from `decision-transparency-engine.py`: agreement
boosts the averaged confidence by 0.15 capped at 0.95; disagreement keeps the
Bayesian workflow with a flat 0.20 penalty floored at 0.30. -/
def determine_consensus (bayesian_workflow : WorkflowType) (bayesian_confidence : ℚ)
    (fuzzy_workflow : WorkflowType) (fuzzy_confidence : ℚ) : WorkflowType × ℚ :=
  if bayesian_workflow = fuzzy_workflow then
    (bayesian_workflow,
      min (95/100) ((bayesian_confidence + fuzzy_confidence) / 2 + 15/100))
  else
    (bayesian_workflow, max (30/100) (bayesian_confidence - 20/100))

/-- C3 counterexample: with both methods agreeing on the workflow and
confidences 0.9 and 0, the consensus confidence is 0.6, strictly below
`max(bayesian_confidence, fuzzy_confidence) = 0.9`, so the claimed lower bound
fails (the 0.95 cap is not even involved here). -/
theorem consensus_bound_counterexample :
    (determine_consensus .orchestrated (9/10) .orchestrated 0).2 <
      max (9/10) (0 : ℚ) := by
  norm_num [determine_consensus]

/-- C3 amended: for agreeing methods the consensus confidence is at most
0.95 unconditionally (the `min` cap), and it is at least
`max(bayesian_confidence, fuzzy_confidence)` provided that maximum is itself
at most 0.95 and the two confidences differ by at most 0.3 (so that the
averaged-plus-0.15 boost cannot fall below the larger confidence). -/
theorem consensus_bound_amended (bw fw : WorkflowType) (bc fc : ℚ)
    (hagree : bw = fw) :
    (determine_consensus bw bc fw fc).2 ≤ 95/100 ∧
    (max bc fc ≤ 95/100 → |bc - fc| ≤ 3/10 →
      max bc fc ≤ (determine_consensus bw bc fw fc).2) := by
  simp only [determine_consensus, if_pos hagree]
  refine ⟨min_le_left _ _, fun hcap hdiff => ?_⟩
  rw [abs_le] at hdiff
  refine le_min hcap ?_
  rcases max_cases bc fc with ⟨hm, _⟩ | ⟨hm, _⟩ <;> rw [hm] <;> linarith [hdiff.1, hdiff.2]

theorem consensus_bound_amended_witness :
    (determine_consensus .taskit (8/10) .taskit (7/10)).2 ≤ 95/100 ∧
    max (8/10 : ℚ) (7/10) ≤
      (determine_consensus .taskit (8/10) .taskit (7/10)).2 :=
  have h := consensus_bound_amended .taskit .taskit (8/10) (7/10) rfl
  ⟨h.1, h.2 (by norm_num) (by rw [abs_le]; norm_num)⟩

/-- The static per-factor importance table of `simulate_decision_change`
(dictionary lookup with default 0.15). -/
def factor_importance (factor_name : String) : ℚ :=
  if factor_name = "technical_complexity" then 25/100
  else if factor_name = "scope_impact" then 20/100
  else if factor_name = "risk_factor" then 30/100
  else if factor_name = "context_load" then 20/100
  else if factor_name = "time_pressure" then 5/100
  else 15/100

/-- The fields of a `BayesianResult` read by the sensitivity analysis. -/
structure BayesianResult where
  workflow : WorkflowType
  confidence : ℚ
  alternatives : List (WorkflowType × ℚ)
deriving DecidableEq, Repr

/-- The triple returned by `simulate_decision_change`. -/
structure SimulatedChange where
  workflow : WorkflowType
  confidence : ℚ
  workflow_changed : Bool
deriving DecidableEq, Repr

/-- Python `max(alternatives, key=alternatives.get)` over a nonempty
association list: first key of maximal value wins. -/
def alt_argmax (x : WorkflowType × ℚ) (xs : List (WorkflowType × ℚ)) : WorkflowType :=
  (xs.foldl (fun best y => if best.2 < y.2 then y else best) x).1

/-- `simulate_decision_change`: linear approximation of the confidence change
(`perturbation * importance * 0.5`), clamped confidence, and a workflow flip
exactly when the approximated change magnitude exceeds the 0.15 threshold. -/
def simulate_decision_change (base_result : BayesianResult) (factor_name : String)
    (perturbation : ℚ) : SimulatedChange :=
  let confidence_change := perturbation * factor_importance factor_name * (1/2)
  let new_confidence := max (1/10) (min (95/100) (base_result.confidence + confidence_change))
  let workflow_changed := decide (3/20 < |confidence_change|)
  let new_workflow :=
    if workflow_changed then
      match base_result.alternatives with
      | [] => base_result.workflow
      | x :: xs => alt_argmax x xs
    else base_result.workflow
  ⟨new_workflow, new_confidence, workflow_changed⟩

/-- `perturbation_ranges` from `initialize_sensitivity_parameters`. -/
def perturbation_ranges : List ℚ := [-3/10, -2/10, -1/10, 1/10, 2/10, 3/10]

/-- `workflow_change_frequency` computed in `analyze_factor_sensitivity`:
fraction of perturbations whose simulated workflow differs from the base. -/
def workflow_change_frequency (base_result : BayesianResult) (factor_name : String) : ℚ :=
  (perturbation_ranges.countP
    (fun p => (simulate_decision_change base_result factor_name p).workflow ≠
      base_result.workflow) : ℕ) / (perturbation_ranges.length : ℚ)

lemma factor_importance_bounds (factor_name : String) :
    0 ≤ factor_importance factor_name ∧ factor_importance factor_name ≤ 3/10 := by
  unfold factor_importance
  split_ifs <;> norm_num

lemma conf_change_bound (factor_name : String) (p : ℚ) (hp : |p| ≤ 3/10) :
    |p * factor_importance factor_name * (1/2)| ≤ 9/200 := by
  obtain ⟨hi0, hi1⟩ := factor_importance_bounds factor_name
  rw [abs_mul, abs_mul, abs_of_nonneg hi0, abs_of_nonneg (by norm_num : (0:ℚ) ≤ 1/2)]
  calc |p| * factor_importance factor_name * (1/2)
      ≤ (3/10) * (3/10) * (1/2) := by
        apply mul_le_mul_of_nonneg_right _ (by norm_num)
        exact mul_le_mul hp hi1 hi0 (by norm_num)
    _ = 9/200 := by norm_num

lemma simulate_no_flip (base_result : BayesianResult) (factor_name : String)
    (p : ℚ) (hp : |p| ≤ 3/10) :
    (simulate_decision_change base_result factor_name p).workflow_changed = false ∧
    (simulate_decision_change base_result factor_name p).workflow =
      base_result.workflow := by
  have habs := conf_change_bound factor_name p hp
  have hflag : ¬ (3/20 < |p * factor_importance factor_name * (1/2)|) := by
    intro hlt
    linarith
  constructor
  · simp only [simulate_decision_change, decide_eq_false hflag]
  · simp only [simulate_decision_change, decide_eq_false hflag, Bool.false_eq_true,
      if_false]

/-- C9: for every factor name and every perturbation in the configured set,
the approximated confidence change stays strictly below the 0.15 flip
threshold, so `simulate_decision_change` never reports a workflow change, the
simulated workflow always equals the base workflow, and the per-factor
`workflow_change_frequency` is 0. -/
theorem sensitivity_never_flips (base_result : BayesianResult) (factor_name : String)
    (p : ℚ) (hp : p ∈ perturbation_ranges) :
    |p * factor_importance factor_name * (1/2)| ≤ 9/200 ∧
    (simulate_decision_change base_result factor_name p).workflow_changed = false ∧
    (simulate_decision_change base_result factor_name p).workflow =
      base_result.workflow ∧
    workflow_change_frequency base_result factor_name = 0 := by
  have hp3 : |p| ≤ 3/10 := by
    simp only [perturbation_ranges, List.mem_cons, List.not_mem_nil, or_false] at hp
    rcases hp with h | h | h | h | h | h <;> rw [h, abs_le] <;> norm_num
  obtain ⟨hflag, hwf⟩ := simulate_no_flip base_result factor_name p hp3
  refine ⟨conf_change_bound factor_name p hp3, hflag, hwf, ?_⟩
  unfold workflow_change_frequency
  have hcount : perturbation_ranges.countP
      (fun q => (simulate_decision_change base_result factor_name q).workflow ≠
        base_result.workflow) = 0 := by
    rw [List.countP_eq_zero]
    intro q hq
    have hq3 : |q| ≤ 3/10 := by
      simp only [perturbation_ranges, List.mem_cons, List.not_mem_nil, or_false] at hq
      rcases hq with h | h | h | h | h | h <;> rw [h, abs_le] <;> norm_num
    have := (simulate_no_flip base_result factor_name q hq3).2
    simp [this]
  rw [hcount]
  norm_num

theorem sensitivity_never_flips_witness :
    ((3:ℚ)/10) ∈ perturbation_ranges ∧
    (|(3/10 : ℚ) * factor_importance "risk_factor" * (1/2)| ≤ 9/200 ∧
     (simulate_decision_change ⟨.orchestrated, 7/10, [(.taskit, 2/10)]⟩
        "risk_factor" (3/10)).workflow_changed = false ∧
     (simulate_decision_change ⟨.orchestrated, 7/10, [(.taskit, 2/10)]⟩
        "risk_factor" (3/10)).workflow = WorkflowType.orchestrated ∧
     workflow_change_frequency ⟨.orchestrated, 7/10, [(.taskit, 2/10)]⟩
        "risk_factor" = 0) :=
  have hmem : ((3:ℚ)/10) ∈ perturbation_ranges := by
    simp [perturbation_ranges]
  ⟨hmem, sensitivity_never_flips ⟨.orchestrated, 7/10, [(.taskit, 2/10)]⟩
    "risk_factor" (3/10) hmem⟩

end Transparency

namespace Streamlined

/-- `TaskAnalysis` dataclass of `streamlined-decision-engine.py` (the variant
with a clamping `__post_init__`). -/
structure TaskAnalysis where
  technical_complexity : ℚ
  scope_impact : ℚ
  risk_factor : ℚ
  context_load : ℚ
  time_pressure : ℚ
deriving DecidableEq, Repr

/-- The clamp `max(0.0, min(1.0, value))` applied per field. -/
def clamp01 (value : ℚ) : ℚ := max 0 (min 1 value)

/-- Constructing a streamlined `TaskAnalysis`: the dataclass `__init__`
followed by `__post_init__`, which clamps every field into `[0,1]`. -/
def mkTaskAnalysis (technical_complexity scope_impact risk_factor context_load
    time_pressure : ℚ) : TaskAnalysis :=
  ⟨clamp01 technical_complexity, clamp01 scope_impact, clamp01 risk_factor,
   clamp01 context_load, clamp01 time_pressure⟩

/-- C4 counterexample: the claim speaks of every `TaskAnalysis` consumed by
the estimators, but the Bayesian module's own `TaskAnalysis` dataclass has no
`__post_init__`: constructed with `technical_complexity = 2` it keeps the
out-of-range value. -/
theorem task_analysis_clamp_counterexample :
    ¬ ((Bayesian.TaskAnalysis.mk 2 0 0 0 0).technical_complexity ≤ 1) := by
  norm_num

lemma clamp01_mem (value : ℚ) : 0 ≤ clamp01 value ∧ clamp01 value ≤ 1 :=
  ⟨le_max_left _ _, max_le (by norm_num) (min_le_left _ _)⟩

/-- C4 amended: the streamlined engine's `TaskAnalysis` (the dataclass with
the clamping `__post_init__`) has all five fields in `[0,1]` for every
construction from arbitrary finite inputs — clamped, never rejected; the
Bayesian module's own `TaskAnalysis` dataclass performs no such clamping. -/
theorem task_analysis_clamp_amended (a b c d e : ℚ) :
    (0 ≤ (mkTaskAnalysis a b c d e).technical_complexity ∧
      (mkTaskAnalysis a b c d e).technical_complexity ≤ 1) ∧
    (0 ≤ (mkTaskAnalysis a b c d e).scope_impact ∧
      (mkTaskAnalysis a b c d e).scope_impact ≤ 1) ∧
    (0 ≤ (mkTaskAnalysis a b c d e).risk_factor ∧
      (mkTaskAnalysis a b c d e).risk_factor ≤ 1) ∧
    (0 ≤ (mkTaskAnalysis a b c d e).context_load ∧
      (mkTaskAnalysis a b c d e).context_load ≤ 1) ∧
    (0 ≤ (mkTaskAnalysis a b c d e).time_pressure ∧
      (mkTaskAnalysis a b c d e).time_pressure ≤ 1) :=
  ⟨clamp01_mem a, clamp01_mem b, clamp01_mem c, clamp01_mem d, clamp01_mem e⟩

end Streamlined

namespace RiskSim

/-- The nested `risk_correlations` dictionary from
`context-prediction-risk-assessment.py` as a partial lookup. -/
def risk_correlations_lookup (risk1 risk2 : String) : Option ℚ :=
  if risk1 = "breaking_changes" then
    if risk2 = "integration_failure" then some (6/10)
    else if risk2 = "performance_degradation" then some (3/10)
    else if risk2 = "security_vulnerability" then some (2/10)
    else none
  else if risk1 = "integration_failure" then
    if risk2 = "data_corruption" then some (4/10)
    else if risk2 = "service_disruption" then some (7/10)
    else none
  else if risk1 = "performance_degradation" then
    if risk2 = "user_experience_impact" then some (8/10)
    else if risk2 = "resource_exhaustion" then some (5/10)
    else none
  else none

/-- `get_risk_correlation`: try the table both ways, default 0.1. -/
def get_risk_correlation (risk1 risk2 : String) : ℚ :=
  match risk_correlations_lookup risk1 risk2 with
  | some c => c
  | none =>
    match risk_correlations_lookup risk2 risk1 with
    | some c => c
    | none => 1/10

lemma risk_correlations_lookup_nonneg (risk1 risk2 : String) (c : ℚ)
    (h : risk_correlations_lookup risk1 risk2 = some c) : 0 ≤ c := by
  unfold risk_correlations_lookup at h
  split_ifs at h <;> simp_all <;> norm_num [← h]

lemma get_risk_correlation_nonneg (risk1 risk2 : String) :
    0 ≤ get_risk_correlation risk1 risk2 := by
  unfold get_risk_correlation
  cases h1 : risk_correlations_lookup risk1 risk2 with
  | some c => exact risk_correlations_lookup_nonneg risk1 risk2 c h1
  | none =>
    cases h2 : risk_correlations_lookup risk2 risk1 with
    | some c => exact risk_correlations_lookup_nonneg risk2 risk1 c h2
    | none => norm_num

/-- The correlation-amplification loop of `combine_correlated_risks`: for
every index pair `i < j`, add `risk_i * risk_j * correlation * 0.1`. -/
def pair_bonus {n : ℕ} (sampled_risks : Fin n → ℚ) (names : Fin n → String) : ℚ :=
  ∑ i : Fin n, ∑ j : Fin n,
    if i < j then
      sampled_risks i * sampled_risks j *
        get_risk_correlation (names i) (names j) * (1/10)
    else 0

/-- `combine_correlated_risks`: 0 on an empty list; otherwise start from the
maximum sampled risk, add the pairwise correlation bonuses, cap at 1. -/
def combine_correlated_risks {n : ℕ} (sampled_risks : Fin n → ℚ)
    (names : Fin n → String) : ℚ :=
  match n, sampled_risks, names with
  | 0, _, _ => 0
  | _ + 1, sampled_risks, names =>
    min 1 ((Finset.univ.sup' Finset.univ_nonempty sampled_risks) +
      pair_bonus sampled_risks names)

/-- The blend `total_risk = base_risk + combined_risk * (1 - base_risk)` from
`monte_carlo_risk_simulation`; each sample is `min 1 total_risk`. -/
def monte_carlo_total_risk (base_risk combined_risk : ℚ) : ℚ :=
  base_risk + combined_risk * (1 - base_risk)

lemma update_le_update {n : ℕ} (risks : Fin n → ℚ) (i : Fin n) (x y : ℚ)
    (hxy : x ≤ y) (j : Fin n) :
    Function.update risks i x j ≤ Function.update risks i y j := by
  rcases eq_or_ne j i with h | h
  · subst h
    simp [Function.update_same, hxy]
  · simp [Function.update_noteq h]

lemma update_nonneg {n : ℕ} (risks : Fin n → ℚ) (i : Fin n) (x : ℚ)
    (hnn : ∀ j, 0 ≤ risks j) (hx : 0 ≤ x) (j : Fin n) :
    0 ≤ Function.update risks i x j := by
  rcases eq_or_ne j i with h | h
  · subst h
    simp [Function.update_same, hx]
  · simp [Function.update_noteq h, hnn j]

lemma pair_bonus_mono {n : ℕ} (risks : Fin n → ℚ) (names : Fin n → String)
    (i : Fin n) (x y : ℚ) (hnn : ∀ j, 0 ≤ risks j) (hx : 0 ≤ x) (hxy : x ≤ y) :
    pair_bonus (Function.update risks i x) names ≤
      pair_bonus (Function.update risks i y) names := by
  unfold pair_bonus
  refine Finset.sum_le_sum (fun a _ => Finset.sum_le_sum (fun b _ => ?_))
  by_cases hab : a < b
  · simp only [if_pos hab]
    have hc := get_risk_correlation_nonneg (names a) (names b)
    have hua := update_nonneg risks i x hnn hx a
    have hub := update_nonneg risks i x hnn hx b
    have h1 : Function.update risks i x a ≤ Function.update risks i y a :=
      update_le_update risks i x y hxy a
    have h2 : Function.update risks i x b ≤ Function.update risks i y b :=
      update_le_update risks i x y hxy b
    have hya : 0 ≤ Function.update risks i y a := le_trans hua h1
    have hmul : Function.update risks i x a * Function.update risks i x b ≤
        Function.update risks i y a * Function.update risks i y b :=
      mul_le_mul h1 h2 hub hya
    have := mul_le_mul_of_nonneg_right hmul hc
    exact mul_le_mul_of_nonneg_right this (by norm_num)
  · simp only [if_neg hab]
    exact le_refl 0

/-- C8: with all sampled risks nonnegative, `combine_correlated_risks` is
non-decreasing in each individual sampled risk (max plus nonnegative pairwise
correlation bonuses, capped at 1), and the blend
`base + combined * (1 - base)` followed by the `min 1` cap preserves that
monotonicity, so raising one factor's realized risk never lowers the
resulting risk sample. -/
theorem monte_carlo_risk_monotone {n : ℕ} (sampled_risks : Fin n → ℚ)
    (names : Fin n → String) (i : Fin n) (x y base_risk : ℚ)
    (hnn : ∀ j, 0 ≤ sampled_risks j) (hx : 0 ≤ x) (hxy : x ≤ y)
    (_hb0 : 0 ≤ base_risk) (hb1 : base_risk ≤ 1) :
    combine_correlated_risks (Function.update sampled_risks i x) names ≤
      combine_correlated_risks (Function.update sampled_risks i y) names ∧
    min 1 (monte_carlo_total_risk base_risk
        (combine_correlated_risks (Function.update sampled_risks i x) names)) ≤
      min 1 (monte_carlo_total_risk base_risk
        (combine_correlated_risks (Function.update sampled_risks i y) names)) := by
  have hcomb : combine_correlated_risks (Function.update sampled_risks i x) names ≤
      combine_correlated_risks (Function.update sampled_risks i y) names := by
    rcases n with _ | m
    · exact i.elim0
    · simp only [combine_correlated_risks]
      refine min_le_min (le_refl 1) (add_le_add ?_ ?_)
      · exact Finset.sup'_mono_fun (fun b _ => update_le_update sampled_risks i x y hxy b)
      · exact pair_bonus_mono sampled_risks names i x y hnn hx hxy
  refine ⟨hcomb, min_le_min (le_refl 1) ?_⟩
  unfold monte_carlo_total_risk
  have h1b : (0:ℚ) ≤ 1 - base_risk := by linarith
  have := mul_le_mul_of_nonneg_right hcomb h1b
  linarith

theorem monte_carlo_risk_monotone_witness :
    combine_correlated_risks
        (Function.update (fun j : Fin 2 => if j = 0 then (3/10 : ℚ) else 2/5) 0 (1/4))
        (fun j : Fin 2 => if j = 0 then "breaking_changes" else "integration_failure") ≤
      combine_correlated_risks
        (Function.update (fun j : Fin 2 => if j = 0 then (3/10 : ℚ) else 2/5) 0 (1/2))
        (fun j : Fin 2 => if j = 0 then "breaking_changes" else "integration_failure") ∧
    min 1 (monte_carlo_total_risk (1/4)
        (combine_correlated_risks
          (Function.update (fun j : Fin 2 => if j = 0 then (3/10 : ℚ) else 2/5) 0 (1/4))
          (fun j : Fin 2 => if j = 0 then "breaking_changes" else "integration_failure"))) ≤
      min 1 (monte_carlo_total_risk (1/4)
        (combine_correlated_risks
          (Function.update (fun j : Fin 2 => if j = 0 then (3/10 : ℚ) else 2/5) 0 (1/2))
          (fun j : Fin 2 => if j = 0 then "breaking_changes" else "integration_failure"))) :=
  monte_carlo_risk_monotone
    (fun j : Fin 2 => if j = 0 then (3/10 : ℚ) else 2/5)
    (fun j : Fin 2 => if j = 0 then "breaking_changes" else "integration_failure")
    0 (1/4) (1/2) (1/4)
    (fun j => by fin_cases j <;> norm_num)
    (by norm_num) (by norm_num) (by norm_num) (by norm_num)

end RiskSim

end AgentSystem
